import Mathlib

/-!
# A verification development for the gee-rpc repository

This file gives a shallow embedding, in Lean 4, of the parts of the
gee-rpc Go code base that the specification's claims are about, and
proves (or refutes) each claim against that embedding.

Embedding conventions:
* Go machine integers (`uint64`, `int`) are modelled as `Nat`; none of the
  claims exercises overflow.
* `time.Time` and `time.Duration` are modelled as `Nat` (nanoseconds);
  `t.Add(d).After(now)` becomes `now < t + d`.
* Go maps are modelled as association lists in insertion order.  All
  observable results proved below (sorted slices, membership, pruning)
  are independent of Go's unspecified map iteration order.
* A Go `error` value is `Option String` (`none` is `nil`); functions that
  can fail return `Except String _` where that is more convenient.
* Mutation is modelled by explicit state passing: a Go method on `*T`
  becomes a Lean function `T → ... → T × result`.
-/

/-! ## Client data model (client.go, `src/unnamed/part_000`)

`Call` carries one RPC invocation.  The Go struct also holds `Args` and
`Reply` as `interface{}`; the claims below only inspect the error slot
and the completion signal, so the payload is not carried here (the
payload-carrying variant used by `Go` is `CallData` further down).
`doneCount` counts how many times `call.done()` has signalled on the
`Done` channel, so that "completed exactly once" is expressible. -/
structure Call where
  seq : Nat
  serviceMethod : String
  err : Option String
  doneCount : Nat
deriving Repr, DecidableEq

/-- Client state (client.go).  `cc`, the codec, is external; the result
of `cc.Close()` is passed to `Client.Close` as a parameter.  `sending`
and `mu` are locks and have no state-machine content of their own. -/
structure Client where
  seq : Nat
  pending : List (Nat × Call)
  closing : Bool
  shutdown : Bool
deriving Repr, DecidableEq

/-- `var ErrShutdown = errors.New("connection is shut down")` -/
def ErrShutdown : String := "connection is shut down"

/-- `func (client *Client) Close() error`: if already closing, return
`ErrShutdown`; else set `closing` and return `client.cc.Close()`, whose
result is the parameter `ccClose`. -/
def Client.Close (client : Client) (ccClose : Option String) :
    Client × Option String :=
  if client.closing then (client, some ErrShutdown)
  else ({ client with closing := true }, ccClose)

/-- `func (client *Client) IsAvailable() bool`:
`!client.shutdown && !client.closing`. -/
def Client.IsAvailable (client : Client) : Bool :=
  !client.shutdown && !client.closing

/-- `registerCall`: fail with `ErrShutdown` when closing or shut down,
else insert the call keyed by the current `seq` and bump `seq`. -/
def Client.registerCall (client : Client) (call : Call) :
    Client × Except String Nat :=
  if client.closing || client.shutdown then (client, .error ErrShutdown)
  else
    ({ client with
        pending := client.pending ++ [(client.seq, { call with seq := client.seq })],
        seq := client.seq + 1 },
      .ok client.seq)

/-- `removeCall`: look the call up by `seq`, delete the entry, return
the call (or `none` when absent, as Go's map read yields `nil`). -/
def Client.removeCall (client : Client) (seq : Nat) :
    Client × Option Call :=
  ({ client with pending := client.pending.filter (fun p => p.1 != seq) },
    client.pending.lookup seq)

/-- `terminateCalls`: set `shutdown`, then assign the terminal error to
every pending call and signal its `Done` channel once.  The Go code
mutates the calls through their pointers and does not delete the map
entries. -/
def Client.terminateCalls (client : Client) (err : String) : Client :=
  { client with
      shutdown := true,
      pending := client.pending.map
        (fun p => (p.1, { p.2 with err := some err, doneCount := p.2.doneCount + 1 })) }

/-! ## Registry (day7-registry/registry/registry.go) -/

/-- `ServerItem` is `{Addr, start}`; the registry maps an address to its
item.  Keys are unique: `putServer` updates in place or appends. -/
structure GeeRegistry where
  timeout : Nat
  servers : List (String × Nat)
deriving Repr, DecidableEq

/-- `func New(timeout time.Duration) *GeeRegistry` -/
def GeeRegistry.New (timeout : Nat) : GeeRegistry :=
  { timeout := timeout, servers := [] }

/-- `defaultTimeout = time.Minute * 5` (nanoseconds). -/
def defaultTimeout : Nat := 5 * 60 * 1000000000

/-- The liveness test of `aliveServers`:
`r.timeout == 0 || s.start.Add(r.timeout).After(time.Now())`. -/
def aliveCond (timeout now start : Nat) : Bool :=
  timeout == 0 || decide (now < start + timeout)

/-- `aliveServers`: keep (and return, sorted with `sort.Strings`) the
addresses passing `aliveCond`; delete the rest from the map. -/
def GeeRegistry.aliveServers (r : GeeRegistry) (now : Nat) :
    List String × GeeRegistry :=
  (List.insertionSort (fun a b => a ≤ b)
      ((r.servers.filter (fun p => aliveCond r.timeout now p.2)).map Prod.fst),
    { r with servers := r.servers.filter (fun p => aliveCond r.timeout now p.2) })

/-- `putServer`: insert `{addr, now}` when absent, else refresh the
stored start time to `now`. -/
def GeeRegistry.putServer (r : GeeRegistry) (addr : String) (now : Nat) :
    GeeRegistry :=
  if (r.servers.lookup addr).isSome then
    { r with servers := r.servers.map (fun p => if p.1 = addr then (p.1, now) else p) }
  else
    { r with servers := r.servers ++ [(addr, now)] }

/-- `req.Header.Get(name)`: the header value, or `""` when absent. -/
def headerGet (req : List (String × String)) (name : String) : String :=
  (req.lookup name).getD ""

/-- The observable outcome of one registry `ServeHTTP` call: a response
header set on a 200, a bare 200 (Go writes no explicit status after
`putServer`), or an explicit status code. -/
inductive RegistryResponse where
  | respHeader (name value : String)
  | ok
  | status (code : Nat)
deriving Repr, DecidableEq

/-- `func (r *GeeRegistry) ServeHTTP(w, req)` (registry.go): `GET` sets
response header `X-Geerpc-Servers` to the joined alive list; `POST`
reads request header `X-Geerpc-Server`, answering 500 when it is empty
and upserting otherwise; any other method gets 405. -/
def GeeRegistry.ServeHTTP (r : GeeRegistry) (method : String)
    (reqHeaders : List (String × String)) (now : Nat) :
    GeeRegistry × RegistryResponse :=
  if method = "GET" then
    let res := r.aliveServers now
    (res.2, .respHeader "X-Geerpc-Servers" (String.intercalate "," res.1))
  else if method = "POST" then
    let addr := headerGet reqHeaders "X-Geerpc-Server"
    if addr = "" then (r, .status 500)
    else (r.putServer addr now, .ok)
  else (r, .status 405)

/-! ## Option handshake and Dial (server.go day7, client.go `part_000`) -/

/-- `const MagicNumber = 0x3bef5c` -/
def MagicNumber : Nat := 0x3bef5c

/-- `codec.GobType`.  The `codec` package is not under src; the spec's
codec identifiers name the gob codec `"application/gob"`. -/
def GobType : String := "application/gob"

/-- The Go struct `Option` (server.go); renamed because `Option` is a
core Lean type.  Durations in nanoseconds. -/
structure RpcOption where
  magicNumber : Nat
  codecType : String
  connectTimeout : Nat
  handleTimeout : Nat
deriving Repr, DecidableEq

/-- `var DefaultOption = &Option{MagicNumber, codec.GobType, time.Second * 10, <zero>}` -/
def DefaultOption : RpcOption :=
  { magicNumber := MagicNumber, codecType := GobType,
    connectTimeout := 10 * 1000000000, handleTimeout := 0 }

/-- `func parseOptions(opts ...*Option) (*Option, error)` (client.go):
an empty slice or a nil first element yields `DefaultOption`; a slice of
length other than one errors; otherwise the single option has its magic
number overwritten with the default and an empty codec type replaced by
the default codec type.  A `nil` element of the Go variadic slice is
`none`. -/
def parseOptions (opts : List (Option RpcOption)) : Except String RpcOption :=
  match opts with
  | [] => .ok DefaultOption
  | none :: _ => .ok DefaultOption
  | some opt :: rest =>
    if rest ≠ [] then .error "number of options is more than 1"
    else
      .ok { opt with
              magicNumber := DefaultOption.magicNumber,
              codecType :=
                if opt.codecType = "" then DefaultOption.codecType else opt.codecType }

/-- The observable split in `Dial`: either `parseOptions` failed and the
function returned before `net.Dial`, or the connection is attempted with
the parsed option (which `NewClient` then sends as the preamble). -/
inductive DialResult where
  | optionsError (e : String)
  | connect (opt : RpcOption)
deriving Repr, DecidableEq

/-- `func Dial(network, address string, opts ...*Option)` (client.go):
parse the options first; only on success call `net.Dial` and build the
client over the parsed option. -/
def Dial (opts : List (Option RpcOption)) : DialResult :=
  match parseOptions opts with
  | .error e => .optionsError e
  | .ok opt => .connect opt

/-! ## Service registry (server.go day7, `Register`) -/

/-- `service` (service.go, `part_001`): the reflection-built descriptor.
The claims below key only on the derived service name; the method map is
kept as the list of registrable method names. -/
structure Service where
  name : String
  methodNames : List String
deriving Repr, DecidableEq

/-- Server state: `serviceMap sync.Map` as an association list. -/
structure Server where
  serviceMap : List (String × Service)
deriving Repr, DecidableEq

/-- `func (server *Server) Register(rcvr interface{}) error`:
`LoadOrStore` stores only when the name is absent; on a duplicate the
map is untouched and an error is returned. -/
def Server.Register (server : Server) (s : Service) : Server × Option String :=
  match server.serviceMap.lookup s.name with
  | some _ => (server, some ("rpc: service already defined: " ++ s.name))
  | none => ({ server with serviceMap := server.serviceMap ++ [(s.name, s)] }, none)

/-! ## Server request handling with timeout (server.go, `handleRequest`) -/

/-- A response body: either the placeholder `invalidRequest`
(`struct{}{}`) sent alongside a non-empty header error, or the reply
value. -/
inductive Body (V : Type) where
  | invalidRequest
  | value (v : V)
deriving Repr, DecidableEq

/-- One response frame written by `sendResponse`. -/
structure Response (V : Type) where
  seq : Nat
  error : String
  body : Body V
deriving Repr, DecidableEq

/-- The outcome of `req.svc.call(req.mtype, req.argv, req.replyv)`:
the user method's error return and the reply value it produced. -/
structure MethodResult (V : Type) where
  err : Option String
  replyv : V
deriving Repr, DecidableEq

/-- The frame the spawned goroutine of `handleRequest` sends once the
invocation finishes: header error plus placeholder on failure, reply
body on success. -/
def methodResponse {V : Type} (seq : Nat) (res : MethodResult V) : Response V :=
  match res.err with
  | some e => { seq := seq, error := e, body := .invalidRequest }
  | none => { seq := seq, error := "", body := .value res.replyv }

/-- `fmt.Sprintf("rpc server: request handle timeout: expect within %s", timeout)`;
`ds` is Go's rendering of the duration (for example `"50ms"`). -/
def timeoutErrorString (ds : String) : String :=
  "rpc server: request handle timeout: expect within " ++ ds

/-- Which event of `handleRequest`'s `select` fires first when a timer
exists: `time.After(timeout)` or the `called` channel. -/
inductive TimerRace where
  | timerFirst
  | calledFirst
deriving Repr, DecidableEq

/-- `func (server *Server) handleRequest(cc, req, sending, wg, timeout)`
as the list of frames this request causes on the connection, in order.
`timeout = 0`: wait for `called` then `sent`; the method's frame is the
only one.  `timeout > 0` and the timer fires first: send the synthesized
timeout frame; the inner goroutine is then permanently blocked on its
unbuffered `called <- struct{}{}` (no receiver remains), so its own
frame is never sent.  `timeout > 0` and `called` fires first: wait for
`sent`; the method's frame is the only one.  `ds` renders `timeout`. -/
def Server.handleRequest {V : Type} (seq timeout : Nat) (ds : String)
    (race : TimerRace) (res : MethodResult V) : List (Response V) :=
  if timeout = 0 then [methodResponse seq res]
  else
    match race with
    | .timerFirst =>
        [{ seq := seq, error := timeoutErrorString ds, body := .invalidRequest }]
    | .calledFirst => [methodResponse seq res]

/-! ## HTTP upgrade (server.go, `ServeHTTP` / `HandleHTTP`) -/

/-- `const connected = "200 Connected to Gee RPC"` -/
def connected : String := "200 Connected to Gee RPC"

/-- `const defaultRPCPath = "/_geeprc_"` (sic: the active declaration in
server.go spells it `geeprc`). -/
def defaultRPCPath : String := "/_geeprc_"

/-- `const defaultDebugPath = "/debug/geerpc"` -/
def defaultDebugPath : String := "/debug/geerpc"

/-- What the server's HTTP handler does with one request. -/
inductive HttpAction where
  | respond (status : Nat) (contentType : String) (bodyText : String)
  | hijacked (written : String) (servesRPC : Bool)
  | logOnly
deriving Repr, DecidableEq

/-- `func (server *Server) ServeHTTP(w, req)` (server.go): any method
other than `CONNECT` gets a 405 with a plain-text body; on `CONNECT` the
connection is hijacked (`hijackOk` tells whether `Hijack()` succeeded; a
failure is only logged), the literal status line is written to the raw
stream, and `ServeConn` then serves RPC framing on the same stream. -/
def Server.ServeHTTPUpgrade (method : String) (hijackOk : Bool) : HttpAction :=
  if method ≠ "CONNECT" then
    .respond 405 "text/plain; charset=utf-8" "405 must CONNECT\n"
  else if hijackOk then
    .hijacked ("HTTP/1.0 " ++ connected ++ "\n\n") true
  else .logOnly

/-- The handler table built by `func (server *Server) HandleHTTP()`:
`http.Handle(defaultRPCPath, server)` then
`http.Handle(defaultDebugPath, debugHTTP{server})`.  `true` marks the
RPC handler, `false` the debug handler. -/
def Server.HandleHTTP : List (String × Bool) :=
  [(defaultRPCPath, true), (defaultDebugPath, false)]

/-! ## Asynchronous interface (client.go, `Go`) -/

/-- The payload-carrying call record built inside `Go`.  `doneCap` is
the capacity of the `Done` channel attached to the call, `doneFresh`
whether `Go` allocated it (the nil-argument path). -/
structure CallData (A R : Type) where
  serviceMethod : String
  args : A
  reply : R
  doneCap : Nat
  doneFresh : Bool
deriving Repr, DecidableEq

/-- `Go` either panics (`log.Panic`) or builds a call and hands it to
`client.send`. -/
inductive GoResult (A R : Type) where
  | panicked (msg : String)
  | ok (call : CallData A R)
deriving Repr, DecidableEq

/-- `func (client *Client) Go(serviceMethod string, args, reply
interface{}, done chan *Call) *Call`: a nil `done` is replaced by a
fresh channel of capacity 10; a non-nil unbuffered `done` panics;
otherwise the caller's channel is kept.  `done` is `none` for nil, else
`some capacity`.  The subsequent `client.send(call)` is the sending path
modelled by `registerCall`/`removeCall` above and does not change the
call's method, args, reply or channel. -/
def Client.Go {A R : Type} (serviceMethod : String) (args : A) (reply : R)
    (done : Option Nat) : GoResult A R :=
  match done with
  | none =>
      .ok { serviceMethod := serviceMethod, args := args, reply := reply,
            doneCap := 10, doneFresh := true }
  | some 0 => .panicked "rpc client: done channel is unbuffered"
  | some (n + 1) =>
      .ok { serviceMethod := serviceMethod, args := args, reply := reply,
            doneCap := n + 1, doneFresh := false }

/-! ## Context-aware synchronous Call

Modelled from the spec: the day7 client's `Call(ctx, serviceMethod,
args, reply)` is not under src (src holds the earlier, context-free
client in `part_000`, while its caller `xc.call` in
day7-registry/xclient passes a `context.Context`).  Spec 4.5: "Race the
call's done signal against ctx cancellation: if ctx fires first, remove
the pending entry and return `call failed: context-cancelled`; otherwise
return the call's error slot."  `removeCall` is the source-embedded
function above. -/
inductive CtxRace where
  | ctxFirst
  | doneFirst (completed : Call)
deriving Repr, DecidableEq

/-- Modelled from the spec: the context-racing `Call` of the day7
client (missing from src).  `race` records which select branch fires
first; the done branch carries the completed call received from the
`Done` channel. -/
def Client.CallCtx (client : Client) (seq : Nat) (race : CtxRace) :
    Client × Option String :=
  match race with
  | .ctxFirst =>
      ((client.removeCall seq).1, some "call failed: context-cancelled")
  | .doneFirst completed => (client, completed.err)

/-! ## Broadcast (day7-registry/xclient, `XClient.Broadcast`)

Each per-address goroutine calls `xc.call` with a private cloned reply,
then enters the `mu`-guarded section.  The shared state there is
`(e, replyDone, reply)`.  `arrivals` below is the sequence of per-call
results in the order the goroutines enter that critical section (a
permutation of the per-server outcomes); the struct records the call's
returned error and the value its cloned reply holds at that point.
`Broadcast` returns `e` after `wg.Wait()`. -/
structure BroadcastOutcome (V : Type) where
  err : Option String
  clonedReply : V
deriving Repr, DecidableEq

/-- One execution of the `mu`-guarded block, verbatim from the source:
`if err != nil && e == nil { e = err; cancel() }` then
`if err != nil && !replyDone { reply <- clonedReply; replyDone = true }`.
Note both guards test `err != nil`: the reply slot is written from a
FAILED call's clone. -/
def broadcastStep {V : Type} (acc : Option String × Bool × V)
    (o : BroadcastOutcome V) : Option String × Bool × V :=
  let e := if o.err.isSome && acc.1.isNone then o.err else acc.1
  let rd := acc.2.1 || o.err.isSome
  let v := if o.err.isSome && !acc.2.1 then o.clonedReply else acc.2.2
  (e, rd, v)

/-- `func (xc *XClient) Broadcast(ctx, serviceMethod, args, reply)`
reduced to its shared-state trace: starting from
`(e = nil, replyDone = reply == nil, caller's reply value)`, fold the
critical section over the arrival order; the function returns the final
`e` and leaves the caller's reply slot holding the final `v`.
`replyNil` is `reply == nil`; `init` is the caller's initial reply
value. -/
def XClient.Broadcast {V : Type} (replyNil : Bool) (init : V)
    (arrivals : List (BroadcastOutcome V)) : Option String × Bool × V :=
  arrivals.foldl broadcastStep (none, replyNil, init)

/-! ## Helper lemmas -/

/-- Association-list lookup at the head key. -/
theorem lookup_cons_self {α β : Type} [BEq α] [LawfulBEq α] (a : α) (b : β)
    (l : List (α × β)) : ((a, b) :: l).lookup a = some b := by
  simp [List.lookup]

/-- Association-list lookup skips a head with a different key. -/
theorem lookup_cons_ne {α β : Type} [BEq α] [LawfulBEq α] (a k : α) (b : β)
    (l : List (α × β)) (h : k ≠ a) : ((a, b) :: l).lookup k = l.lookup k := by
  have hb : (k == a) = false := beq_eq_false_iff_ne.mpr h
  simp [List.lookup, hb]

/-- Deleting a key from an association list removes it from lookup. -/
theorem lookup_filter_ne_self {α : Type} (l : List (Nat × α)) (k : Nat) :
    (l.filter (fun p => p.1 != k)).lookup k = none := by
  induction l with
  | nil => rfl
  | cons p rest ih =>
    obtain ⟨a, b⟩ := p
    rcases eq_or_ne a k with h | h
    · simpa [List.filter_cons, h] using ih
    · rw [List.filter_cons]
      simp only [show ((a, b).1 != k) = true by simpa using h, if_true]
      rw [lookup_cons_ne a k b _ (Ne.symm h)]
      exact ih

/-- Deleting one key from an association list leaves every other lookup
unchanged. -/
theorem lookup_filter_ne_other {α : Type} (l : List (Nat × α)) (k q : Nat)
    (h : q ≠ k) :
    (l.filter (fun p => p.1 != k)).lookup q = l.lookup q := by
  induction l with
  | nil => rfl
  | cons p rest ih =>
    obtain ⟨a, b⟩ := p
    rcases eq_or_ne a k with ha | ha
    · subst ha
      rw [List.filter_cons]
      simp only [show ((a, b).1 != a) = false by simp, if_false]
      rw [lookup_cons_ne a q b rest h]
      exact ih
    · rw [List.filter_cons]
      simp only [show ((a, b).1 != k) = true by simpa using ha, if_true]
      rcases eq_or_ne q a with hq | hq
      · subst hq
        rw [lookup_cons_self, lookup_cons_self]
      · rw [lookup_cons_ne a q b _ hq, lookup_cons_ne a q b rest hq]
        exact ih

/-- Refreshing an existing key of a string-keyed association list. -/
theorem lookup_map_refresh (l : List (String × Nat)) (addr : String) (now : Nat)
    (h : (l.lookup addr).isSome) :
    (l.map (fun p => if p.1 = addr then (p.1, now) else p)).lookup addr = some now := by
  induction l with
  | nil => simp [List.lookup] at h
  | cons p rest ih =>
    obtain ⟨a, b⟩ := p
    rw [List.map_cons]
    rcases eq_or_ne a addr with ha | ha
    · subst ha
      simp only [show ((a, b).1 = a) = True by simp, if_true]
      exact lookup_cons_self a now _
    · simp only [show ¬ ((a, b).1 = addr) by simpa using ha, if_false]
      rw [lookup_cons_ne a addr b _ (Ne.symm ha)]
      exact ih (by rwa [lookup_cons_ne a addr b rest (Ne.symm ha)] at h)

/-- Appending a fresh key to a string-keyed association list. -/
theorem lookup_append_fresh (l : List (String × Nat)) (addr : String) (now : Nat)
    (h : l.lookup addr = none) :
    (l ++ [(addr, now)]).lookup addr = some now := by
  induction l with
  | nil => exact lookup_cons_self addr now []
  | cons p rest ih =>
    obtain ⟨a, b⟩ := p
    rcases eq_or_ne addr a with ha | ha
    · subst ha
      rw [lookup_cons_self] at h
      exact absurd h (by simp)
    · rw [List.cons_append, lookup_cons_ne a addr b _ ha]
      exact ih (by rwa [lookup_cons_ne a addr b rest ha] at h)

/-- After `putServer`, the stored start time of the touched address is
`now`. -/
theorem putServer_lookup (r : GeeRegistry) (addr : String) (now : Nat) :
    (r.putServer addr now).servers.lookup addr = some now := by
  unfold GeeRegistry.putServer
  rcases h : r.servers.lookup addr with _ | v
  · simpa [h] using lookup_append_fresh r.servers addr now h
  · have hs : (r.servers.lookup addr).isSome := by simp [h]
    simpa [hs] using lookup_map_refresh r.servers addr now hs

/-- Characterization of the broadcast critical-section fold from an
arbitrary shared state: the error component keeps the first error ever
recorded; `replyDone` flips on the first failure; the reply slot is
overwritten exactly once, by the clone of the first failed call to
arrive. -/
theorem broadcast_foldl_eq {V : Type} (arrivals : List (BroadcastOutcome V)) :
    ∀ (e : Option String) (rd : Bool) (v : V),
      arrivals.foldl broadcastStep (e, rd, v) =
        ((match e with
          | some s => some s
          | none => arrivals.findSome? BroadcastOutcome.err),
         rd || arrivals.any (fun o => o.err.isSome),
         if rd then v
         else
           match arrivals.find? (fun o => o.err.isSome) with
           | some o => o.clonedReply
           | none => v) := by
  induction arrivals with
  | nil =>
    intro e rd v
    cases e <;> cases rd <;> simp
  | cons o rest ih =>
    intro e rd v
    rw [List.foldl_cons, List.findSome?_cons, List.any_cons, List.find?_cons]
    rcases ho : o.err with _ | s
    · have hstep : broadcastStep (e, rd, v) o = (e, rd, v) := by
        simp [broadcastStep, ho]
      rw [hstep, ih]
      simp [ho]
    · have hiss : o.err.isSome = true := by simp [ho]
      cases e with
      | none =>
        cases rd with
        | false =>
          have hstep : broadcastStep (none, false, v) o = (some s, true, o.clonedReply) := by
            simp [broadcastStep, ho]
          rw [hstep, ih]
          simp [ho, hiss]
        | true =>
          have hstep : broadcastStep (none, true, v) o = (some s, true, v) := by
            simp [broadcastStep, ho]
          rw [hstep, ih]
          simp [ho, hiss]
      | some t =>
        cases rd with
        | false =>
          have hstep : broadcastStep (some t, false, v) o = (some t, true, o.clonedReply) := by
            simp [broadcastStep, ho]
          rw [hstep, ih]
          simp [ho, hiss]
        | true =>
          have hstep : broadcastStep (some t, true, v) o = (some t, true, v) := by
            simp [broadcastStep, ho]
          rw [hstep, ih]
          simp [ho, hiss]

/-! ## Claims -/

/-- C1 counterexample: two addresses, arrival order = [failed call with
error "boom" and untouched clone 0, successful call whose clone holds
7].  The claim predicts a nil returned error (a success masks errors)
and caller reply 7; the code returns the error "boom" and writes the
failed call's clone 0 into the caller's reply slot. -/
theorem broadcast_claim_counterexample :
    XClient.Broadcast false (0 : Int) [⟨some "boom", 0⟩, ⟨none, 7⟩] =
      (some "boom", true, (0 : Int)) ∧
    some "boom" ≠ (none : Option String) ∧ (0 : Int) ≠ 7 := by
  refine ⟨rfl, by simp, by decide⟩

/-- C1 (amended): `Broadcast` returns the first-observed error (nil only
when every per-address call succeeded), and the caller's reply slot is
overwritten exactly once, with the cloned reply of the FIRST FAILED
per-address call (both guards in the source test `err != nil`);
subsequent outcomes leave it alone, and it is never written when every
call succeeds or when the caller passed a nil reply. -/
theorem broadcast_first_failure_wins {V : Type} (replyNil : Bool) (init : V)
    (arrivals : List (BroadcastOutcome V)) :
    (XClient.Broadcast replyNil init arrivals).1 =
        arrivals.findSome? BroadcastOutcome.err ∧
    ((XClient.Broadcast replyNil init arrivals).1 = none ↔
        ∀ o ∈ arrivals, o.err = none) ∧
    (replyNil = false →
      (XClient.Broadcast replyNil init arrivals).2.2 =
        match arrivals.find? (fun o => o.err.isSome) with
        | some o => o.clonedReply
        | none => init) ∧
    (replyNil = true → (XClient.Broadcast replyNil init arrivals).2.2 = init) := by
  unfold XClient.Broadcast
  rw [broadcast_foldl_eq]
  refine ⟨rfl, List.findSome?_eq_none_iff, ?_, ?_⟩
  · intro h
    subst h
    simp
  · intro h
    subst h
    simp

/-- C1 witness: a success arriving first leaves the slot for the later
failure's clone; the failure's error is returned. -/
theorem broadcast_first_failure_wins_witness :
    (XClient.Broadcast false (0 : Int) [⟨none, 5⟩, ⟨some "x", 9⟩]).1 = some "x" ∧
    (XClient.Broadcast false (0 : Int) [⟨none, 5⟩, ⟨some "x", 9⟩]).2.2 = 9 := by
  constructor
  · rw [(broadcast_first_failure_wins false (0 : Int) [⟨none, 5⟩, ⟨some "x", 9⟩]).1]
    rfl
  · rw [(broadcast_first_failure_wins false (0 : Int) [⟨none, 5⟩, ⟨some "x", 9⟩]).2.2.1 rfl]
    rfl

/-- C2: if the caller's context fires before the call's done signal, the
spec-modelled `Call` removes the pending entry (all other entries and
both availability flags untouched: the connection is not torn down) and
returns `call failed: context-cancelled`; if the done signal fires
first, it returns the completed call's error slot and the state is
untouched. -/
theorem call_ctx_cancellation (client : Client) (seq : Nat) (completed : Call) :
    (client.CallCtx seq CtxRace.ctxFirst).2 = some "call failed: context-cancelled" ∧
    (client.CallCtx seq CtxRace.ctxFirst).1.pending.lookup seq = none ∧
    (∀ q, q ≠ seq →
      (client.CallCtx seq CtxRace.ctxFirst).1.pending.lookup q = client.pending.lookup q) ∧
    (client.CallCtx seq CtxRace.ctxFirst).1.closing = client.closing ∧
    (client.CallCtx seq CtxRace.ctxFirst).1.shutdown = client.shutdown ∧
    (client.CallCtx seq CtxRace.ctxFirst).1.IsAvailable = client.IsAvailable ∧
    client.CallCtx seq (CtxRace.doneFirst completed) = (client, completed.err) := by
  refine ⟨rfl, ?_, ?_, rfl, rfl, rfl, rfl⟩
  · exact lookup_filter_ne_self client.pending seq
  · intro q hq
    exact lookup_filter_ne_other client.pending seq q hq

/-- C2 witness: a two-call client cancelled on seq 1 loses exactly that
entry and reports the cancellation error. -/
theorem call_ctx_cancellation_witness :
    ((⟨3, [(1, ⟨1, "Foo.Sum", none, 0⟩), (2, ⟨2, "Foo.Mul", none, 0⟩)], false,
        false⟩ : Client).CallCtx 1 CtxRace.ctxFirst).2 =
      some "call failed: context-cancelled" ∧
    ((⟨3, [(1, ⟨1, "Foo.Sum", none, 0⟩), (2, ⟨2, "Foo.Mul", none, 0⟩)], false,
        false⟩ : Client).CallCtx 1 CtxRace.ctxFirst).1.pending.lookup 1 = none ∧
    ((⟨3, [(1, ⟨1, "Foo.Sum", none, 0⟩), (2, ⟨2, "Foo.Mul", none, 0⟩)], false,
        false⟩ : Client).CallCtx 1 CtxRace.ctxFirst).1.pending.lookup 2 =
      some ⟨2, "Foo.Mul", none, 0⟩ := by
  refine ⟨(call_ctx_cancellation _ 1 ⟨0, "", none, 0⟩).1,
    (call_ctx_cancellation _ 1 ⟨0, "", none, 0⟩).2.1, ?_⟩
  rw [(call_ctx_cancellation _ 1 ⟨0, "", none, 0⟩).2.2.1 2 (by decide)]
  rfl

/-- C3 counterexample: a client whose receive loop just terminated
(shutdown set, closing still false), codec close succeeding: the first
`Close()` returns the codec's result (nil here), not
`connection is shut down`. -/
theorem connection_death_close_counterexample :
    (((⟨2, [(1, ⟨1, "Foo.Sum", none, 0⟩)], false, false⟩ : Client).terminateCalls
        "read tcp: connection reset").Close none).2 = none ∧
    (none : Option String) ≠ some ErrShutdown := by
  refine ⟨rfl, by simp⟩

/-- C3 (amended): after the receive loop observes a terminal error and
runs `terminateCalls`, every pending call carries that error and has
been signalled exactly once, `IsAvailable()` is false; a subsequent
`Close()` sets `closing` and returns the codec's close result — only a
second `Close()` (when `closing` is already set) returns
`connection is shut down`. -/
theorem connection_death_drain (client : Client) (err : String)
    (cc1 cc2 : Option String) (hclosing : client.closing = false) :
    (∀ p ∈ (client.terminateCalls err).pending, p.2.err = some err) ∧
    (client.terminateCalls err).pending.map (fun p => p.2.doneCount) =
      client.pending.map (fun p => p.2.doneCount + 1) ∧
    (client.terminateCalls err).pending.map Prod.fst =
      client.pending.map Prod.fst ∧
    (client.terminateCalls err).IsAvailable = false ∧
    ((client.terminateCalls err).Close cc1).2 = cc1 ∧
    ((client.terminateCalls err).Close cc1).1.closing = true ∧
    (((client.terminateCalls err).Close cc1).1.Close cc2).2 = some ErrShutdown := by
  refine ⟨?_, ?_, ?_, ?_, ?_, ?_, ?_⟩
  · intro p hp
    simp only [Client.terminateCalls, List.mem_map] at hp
    obtain ⟨q, _, rfl⟩ := hp
    rfl
  · simp [Client.terminateCalls, List.map_map, Function.comp]
  · simp [Client.terminateCalls, List.map_map, Function.comp]
  · simp [Client.terminateCalls, Client.IsAvailable]
  · simp [Client.terminateCalls, Client.Close, hclosing]
  · simp [Client.terminateCalls, Client.Close, hclosing]
  · simp [Client.terminateCalls, Client.Close, hclosing]

/-- C3 witness: one outstanding call, terminal error, codec close nil. -/
theorem connection_death_drain_witness :
    ((⟨2, [(1, ⟨1, "Foo.Sum", none, 3⟩)], false, false⟩ : Client).terminateCalls
        "eof").pending = [(1, ⟨1, "Foo.Sum", some "eof", 4⟩)] ∧
    ((⟨2, [(1, ⟨1, "Foo.Sum", none, 3⟩)], false, false⟩ : Client).terminateCalls
        "eof").IsAvailable = false ∧
    ((((⟨2, [(1, ⟨1, "Foo.Sum", none, 3⟩)], false, false⟩ : Client).terminateCalls
        "eof").Close none).1.Close none).2 = some ErrShutdown := by
  refine ⟨rfl, (connection_death_drain _ "eof" none none rfl).2.2.2.1,
    (connection_death_drain _ "eof" none none rfl).2.2.2.2.2.2⟩

/-- C4 counterexample: at a 50ms timeout firing first, the response
header's error is `rpc server: request handle timeout: expect within
50ms`, which is not equal to the claim's `request handle timeout:
expect within 50ms` (the source prefixes `rpc server: `). -/
theorem handle_request_timeout_counterexample :
    Server.handleRequest 1 50000000 "50ms" TimerRace.timerFirst
        (⟨none, 3⟩ : MethodResult Nat) =
      [{ seq := 1,
         error := "rpc server: request handle timeout: expect within 50ms",
         body := .invalidRequest }] ∧
    "rpc server: request handle timeout: expect within 50ms" ≠
      "request handle timeout: expect within 50ms" := by
  refine ⟨?_, by decide⟩
  simp [Server.handleRequest, timeoutErrorString]

/-- C4 (amended): with `handle_timeout` zero no timer exists and the
request runs to completion (the method's own frame is the only one
sent); with a positive timeout, if the timer fires before `called`, the
only frame sent is the synthesized one whose header error is
`rpc server: request handle timeout: expect within <D>` with the empty
placeholder body, and no reply value of the abandoned handler is ever
sent on the connection; if the method signals first, its frame is sent
as usual. -/
theorem handle_request_timeout {V : Type} (seq timeout : Nat) (ds : String)
    (res : MethodResult V) (hpos : timeout ≠ 0) :
    (∀ race, Server.handleRequest seq 0 ds race res = [methodResponse seq res]) ∧
    Server.handleRequest seq timeout ds TimerRace.timerFirst res =
      [{ seq := seq,
         error := "rpc server: request handle timeout: expect within " ++ ds,
         body := .invalidRequest }] ∧
    (∀ v : V, Body.value v ∉
      (Server.handleRequest seq timeout ds TimerRace.timerFirst res).map Response.body) ∧
    Server.handleRequest seq timeout ds TimerRace.calledFirst res =
      [methodResponse seq res] := by
  refine ⟨?_, ?_, ?_, ?_⟩
  · intro race
    simp [Server.handleRequest]
  · simp [Server.handleRequest, hpos, timeoutErrorString]
  · intro v
    simp [Server.handleRequest, hpos]
  · simp [Server.handleRequest, hpos]

/-- C4 witness: a 50ms timeout losing the race to a method that would
have replied 3; only the timeout frame is sent. -/
theorem handle_request_timeout_witness :
    Server.handleRequest 1 0 "50ms" TimerRace.timerFirst (⟨none, 3⟩ : MethodResult Nat) =
      [{ seq := 1, error := "", body := .value 3 }] ∧
    Body.value 3 ∉
      (Server.handleRequest 1 50000000 "50ms" TimerRace.timerFirst
        (⟨none, 3⟩ : MethodResult Nat)).map Response.body := by
  constructor
  · rw [(handle_request_timeout 1 50000000 "50ms" (⟨none, 3⟩ : MethodResult Nat)
      (by decide)).1 TimerRace.timerFirst]
    rfl
  · exact (handle_request_timeout 1 50000000 "50ms" (⟨none, 3⟩ : MethodResult Nat)
      (by decide)).2.2.1 3

/-- C6 counterexample: the handler table of `HandleHTTP` has no entry at
`/_geerpc_`; the RPC handler is registered at `/_geeprc_` (the active
constant in server.go transposes the letters). -/
theorem http_upgrade_path_counterexample :
    Server.HandleHTTP.lookup "/_geerpc_" = none ∧
    defaultRPCPath = "/_geeprc_" ∧
    "/_geeprc_" ≠ "/_geerpc_" := by
  refine ⟨by decide, rfl, by decide⟩

/-- C6 (amended): `HandleHTTP` registers the RPC handler at
`/_geeprc_`; every non-CONNECT request gets a 405, and a CONNECT request
hijacks the stream, writes the literal line
`HTTP/1.0 200 Connected to Gee RPC\n\n` and serves RPC framing on the
same stream. -/
theorem http_upgrade_endpoint (method : String) (h : method ≠ "CONNECT") :
    Server.HandleHTTP.lookup defaultRPCPath = some true ∧
    defaultRPCPath = "/_geeprc_" ∧
    Server.ServeHTTPUpgrade method true =
      .respond 405 "text/plain; charset=utf-8" "405 must CONNECT\n" ∧
    Server.ServeHTTPUpgrade "CONNECT" true =
      .hijacked "HTTP/1.0 200 Connected to Gee RPC\n\n" true := by
  refine ⟨by decide, rfl, ?_, by decide⟩
  simp [Server.ServeHTTPUpgrade, h]

/-- C6 witness: a GET is refused with 405. -/
theorem http_upgrade_endpoint_witness :
    Server.ServeHTTPUpgrade "GET" true =
      .respond 405 "text/plain; charset=utf-8" "405 must CONNECT\n" :=
  (http_upgrade_endpoint "GET" (by decide)).2.2.1

/-- C7: a second `Register` with an already registered service name
returns `rpc: service already defined: <name>` and leaves the service
map — the original registration and every other entry — unchanged. -/
theorem register_duplicate_rejected (server : Server) (s : Service)
    (h : (server.serviceMap.lookup s.name).isSome) :
    (server.Register s).2 = some ("rpc: service already defined: " ++ s.name) ∧
    (server.Register s).1 = server := by
  unfold Server.Register
  rcases hl : server.serviceMap.lookup s.name with _ | v
  · rw [hl] at h
    simp at h
  · exact ⟨rfl, rfl⟩

/-- C7 witness: re-registering `Foo` next to `Bar` fails and keeps both
entries. -/
theorem register_duplicate_rejected_witness :
    ((⟨[("Foo", ⟨"Foo", ["Sum"]⟩), ("Bar", ⟨"Bar", []⟩)]⟩ : Server).Register
        ⟨"Foo", ["Sum", "Mul"]⟩).2 = some "rpc: service already defined: Foo" ∧
    ((⟨[("Foo", ⟨"Foo", ["Sum"]⟩), ("Bar", ⟨"Bar", []⟩)]⟩ : Server).Register
        ⟨"Foo", ["Sum", "Mul"]⟩).1 =
      ⟨[("Foo", ⟨"Foo", ["Sum"]⟩), ("Bar", ⟨"Bar", []⟩)]⟩ := by
  constructor
  · rw [(register_duplicate_rejected _ ⟨"Foo", ["Sum", "Mul"]⟩ (by decide)).1]
    decide
  · exact (register_duplicate_rejected _ ⟨"Foo", ["Sum", "Mul"]⟩ (by decide)).2

/-- C8: `Go` with a nil done channel allocates a fresh one of capacity
10; a non-nil unbuffered done channel panics; otherwise the caller's
channel is kept, and in both non-panicking cases the built call carries
the given service method, args and reply. -/
theorem go_done_channel {A R : Type} (serviceMethod : String) (args : A)
    (reply : R) (done : Option Nat) :
    Client.Go serviceMethod args reply none =
      .ok { serviceMethod := serviceMethod, args := args, reply := reply,
            doneCap := 10, doneFresh := true } ∧
    Client.Go serviceMethod args reply (some 0) =
      (.panicked "rpc client: done channel is unbuffered" : GoResult A R) ∧
    (∀ n, done = some (n + 1) →
      Client.Go serviceMethod args reply done =
        .ok { serviceMethod := serviceMethod, args := args, reply := reply,
              doneCap := n + 1, doneFresh := false }) := by
  refine ⟨rfl, rfl, ?_⟩
  intro n hn
  subst hn
  rfl

/-- C8 witness: the three channel shapes at a concrete invocation. -/
theorem go_done_channel_witness :
    Client.Go "Foo.Sum" (1 : Nat) (0 : Nat) none =
      .ok { serviceMethod := "Foo.Sum", args := 1, reply := 0,
            doneCap := 10, doneFresh := true } ∧
    Client.Go "Foo.Sum" (1 : Nat) (0 : Nat) (some 0) =
      (.panicked "rpc client: done channel is unbuffered" : GoResult Nat Nat) ∧
    Client.Go "Foo.Sum" (1 : Nat) (0 : Nat) (some 4) =
      .ok { serviceMethod := "Foo.Sum", args := 1, reply := 0,
            doneCap := 4, doneFresh := false } := by
  refine ⟨(go_done_channel "Foo.Sum" 1 0 none).1,
    (go_done_channel "Foo.Sum" 1 0 none).2.1,
    (go_done_channel "Foo.Sum" (1 : Nat) (0 : Nat) (some 4)).2.2 3 rfl⟩

/-- C9 counterexample: a two-element options slice whose first element
is nil does NOT fail: `parseOptions` returns the default option and
`Dial` proceeds to connect, although more than one option was passed. -/
theorem dial_options_counterexample :
    parseOptions [none, some ⟨99, "application/json", 0, 0⟩] = .ok DefaultOption ∧
    Dial [none, some ⟨99, "application/json", 0, 0⟩] = .connect DefaultOption ∧
    (.ok DefaultOption : Except String RpcOption) ≠
      .error "number of options is more than 1" := by
  refine ⟨rfl, rfl, by simp⟩

/-- C9 (amended): every option a successful `Dial` path sends has its
magic number overwritten with 0x3bef5c; a single passed option keeps its
codec type unless empty, in which case the gob type is substituted; zero
options or a nil first option yield the default option; more than one
option fails with `number of options is more than 1` before any
connection is made — unless the first element is nil, in which case the
defaults are used and the rest are ignored. -/
theorem dial_options_parsing (opts : List (Option RpcOption)) :
    (∀ opt, parseOptions opts = .ok opt → opt.magicNumber = MagicNumber) ∧
    (∀ o, parseOptions [some o] =
      .ok { o with
        magicNumber := MagicNumber,
        codecType := (if o.codecType = "" then GobType else o.codecType) }) ∧
    (opts = [] ∨ opts.head? = some none → parseOptions opts = .ok DefaultOption) ∧
    (∀ o rest, opts = some o :: rest → rest ≠ [] →
      parseOptions opts = .error "number of options is more than 1" ∧
      Dial opts = .optionsError "number of options is more than 1") := by
  refine ⟨?_, ?_, ?_, ?_⟩
  · intro opt h
    match opts with
    | [] =>
      simp only [parseOptions, Except.ok.injEq] at h
      subst h
      rfl
    | none :: rest =>
      simp only [parseOptions, Except.ok.injEq] at h
      subst h
      rfl
    | some o :: rest =>
      by_cases hr : rest = []
      · subst hr
        simp only [parseOptions] at h
        rw [if_neg (fun hc => hc rfl)] at h
        cases h
        rfl
      · simp [parseOptions, hr] at h
  · intro o
    simp [parseOptions, DefaultOption]
  · rintro (rfl | h)
    · rfl
    · match opts with
      | [] => rfl
      | none :: rest => rfl
      | some o :: rest => simp at h
  · rintro o rest rfl hr
    exact ⟨by simp [parseOptions, hr], by simp [Dial, parseOptions, hr]⟩

/-- C9 witness: a caller option with a bogus magic number and empty
codec type is sent with the default magic and the gob codec; two
non-nil options are refused. -/
theorem dial_options_parsing_witness :
    parseOptions [some ⟨7, "", 1, 2⟩] = .ok ⟨MagicNumber, GobType, 1, 2⟩ ∧
    parseOptions [] = .ok DefaultOption ∧
    Dial [some ⟨7, "", 1, 2⟩, some ⟨8, "x", 0, 0⟩] =
      .optionsError "number of options is more than 1" := by
  refine ⟨?_, (dial_options_parsing []).2.2.1 (Or.inl rfl), ?_⟩
  · rw [(dial_options_parsing [some ⟨7, "", 1, 2⟩]).2.1 ⟨7, "", 1, 2⟩]
    rfl
  · exact ((dial_options_parsing _).2.2.2 ⟨7, "", 1, 2⟩ [some ⟨8, "x", 0, 0⟩]
      rfl (by simp)).2

/-- C10: with timeout 0 no server is ever considered dead:
`aliveServers` returns the ascending sort of every registered address
and deletes nothing, regardless of how old the heartbeats are. -/
theorem alive_servers_zero_timeout (r : GeeRegistry) (now : Nat)
    (h : r.timeout = 0) :
    (r.aliveServers now).1.Perm (r.servers.map Prod.fst) ∧
    (r.aliveServers now).1.Sorted (fun a b => a ≤ b) ∧
    (r.aliveServers now).2 = r := by
  have hall : ∀ p ∈ r.servers, aliveCond r.timeout now p.2 = true := by
    intro p _
    simp [aliveCond, h]
  have hfilter : r.servers.filter (fun p => aliveCond r.timeout now p.2) = r.servers :=
    List.filter_eq_self.mpr hall
  unfold GeeRegistry.aliveServers
  rw [hfilter]
  exact ⟨List.perm_insertionSort _ _, List.sorted_insertionSort _ _, rfl⟩

/-- C10 witness: a registry with timeout 0 and a heartbeat from time 0
still lists the server at a much later time, unpruned, sorted. -/
theorem alive_servers_zero_timeout_witness :
    ((⟨0, [("b:2", 0), ("a:1", 3)]⟩ : GeeRegistry).aliveServers
        1000000000000).1.Perm ["b:2", "a:1"] ∧
    ((⟨0, [("b:2", 0), ("a:1", 3)]⟩ : GeeRegistry).aliveServers
        1000000000000).2 = ⟨0, [("b:2", 0), ("a:1", 3)]⟩ := by
  refine ⟨?_, (alive_servers_zero_timeout _ 1000000000000 rfl).2.2⟩
  exact (alive_servers_zero_timeout ⟨0, [("b:2", 0), ("a:1", 3)]⟩ 1000000000000 rfl).1

/-- C5 counterexample: the registry reads and writes `X-Geerpc-*`
headers, not `X-Server`/`X-Servers`.  A POST carrying the address in
`X-Server` is answered 500 with no upsert (the code reads
`X-Geerpc-Server`, which is absent), and a GET's list is exposed under
`X-Geerpc-Servers`. -/
theorem registry_http_header_counterexample :
    (GeeRegistry.ServeHTTP ⟨0, [("b", 0)]⟩ "POST" [("X-Server", "a")] 5) =
      (⟨0, [("b", 0)]⟩, .status 500) ∧
    (GeeRegistry.ServeHTTP ⟨0, [("b", 0)]⟩ "GET" [] 5).2 =
      .respHeader "X-Geerpc-Servers" "b" ∧
    "X-Geerpc-Servers" ≠ "X-Servers" ∧ "X-Geerpc-Server" ≠ "X-Server" := by
  refine ⟨by decide, rfl, by decide, by decide⟩

/-- C5 (amended): `GET` sets the response header `X-Geerpc-Servers` to
the comma-separated ascending-sorted list of exactly the addresses with
`last_seen + ttl > now` (or all of them at ttl 0), pruning the dead
entries as a side effect; `POST` reads the address from the request
header `X-Geerpc-Server`, responds 500 when it is empty and upserts
`{address, now}` otherwise; any other method gets 405. -/
theorem registry_http_endpoint (r : GeeRegistry) (req : List (String × String))
    (now : Nat) :
    ((r.ServeHTTP "GET" req now).2 =
        .respHeader "X-Geerpc-Servers" (String.intercalate "," (r.aliveServers now).1) ∧
      (r.aliveServers now).1.Sorted (fun a b => a ≤ b) ∧
      (∀ a, a ∈ (r.aliveServers now).1 ↔
        ∃ st, (a, st) ∈ r.servers ∧ aliveCond r.timeout now st = true) ∧
      (r.ServeHTTP "GET" req now).1.servers =
        r.servers.filter (fun p => aliveCond r.timeout now p.2)) ∧
    (headerGet req "X-Geerpc-Server" = "" →
      r.ServeHTTP "POST" req now = (r, .status 500)) ∧
    (∀ addr, headerGet req "X-Geerpc-Server" = addr → addr ≠ "" →
      (r.ServeHTTP "POST" req now).2 = .ok ∧
      (r.ServeHTTP "POST" req now).1 = r.putServer addr now ∧
      (r.putServer addr now).servers.lookup addr = some now) ∧
    (∀ m, m ≠ "GET" → m ≠ "POST" → r.ServeHTTP m req now = (r, .status 405)) := by
  refine ⟨⟨rfl, List.sorted_insertionSort _ _, ?_, rfl⟩, ?_, ?_, ?_⟩
  · intro a
    unfold GeeRegistry.aliveServers
    rw [(List.perm_insertionSort (fun a b : String => a ≤ b) _).mem_iff]
    rw [List.mem_map]
    constructor
    · rintro ⟨p, hp, rfl⟩
      rw [List.mem_filter] at hp
      exact ⟨p.2, hp.1, hp.2⟩
    · rintro ⟨st, hmem, hcond⟩
      exact ⟨(a, st), List.mem_filter.mpr ⟨hmem, hcond⟩, rfl⟩
  · intro h
    simp [GeeRegistry.ServeHTTP, h]
  · rintro addr rfl h
    refine ⟨?_, ?_, putServer_lookup r _ now⟩
    · simp [GeeRegistry.ServeHTTP, h]
    · simp [GeeRegistry.ServeHTTP, h]
  · intro m h1 h2
    simp [GeeRegistry.ServeHTTP, h1, h2]

/-- C5 witness: a heartbeat via POST `X-Geerpc-Server: c` is upserted
with the current time; a GET on a live singleton lists it; a PUT is
refused with 405. -/
theorem registry_http_endpoint_witness :
    ((⟨10, [("b", 0)]⟩ : GeeRegistry).ServeHTTP "POST" [("X-Geerpc-Server", "c")] 5).2 =
      .ok ∧
    ((⟨10, [("b", 0)]⟩ : GeeRegistry).ServeHTTP "POST"
        [("X-Geerpc-Server", "c")] 5).1.servers.lookup "c" = some 5 ∧
    ((⟨10, [("b", 0)]⟩ : GeeRegistry).ServeHTTP "GET" [] 5).2 =
      .respHeader "X-Geerpc-Servers" "b" ∧
    ((⟨10, [("b", 0)]⟩ : GeeRegistry).ServeHTTP "PUT" [] 5) =
      (⟨10, [("b", 0)]⟩, .status 405) := by
  refine ⟨((registry_http_endpoint _ [("X-Geerpc-Server", "c")] 5).2.2.1 "c" rfl
      (by decide)).1, ?_, ?_, (registry_http_endpoint ⟨10, [("b", 0)]⟩ [] 5).2.2.2
      "PUT" (by decide) (by decide)⟩
  · rw [((registry_http_endpoint ⟨10, [("b", 0)]⟩ [("X-Geerpc-Server", "c")] 5).2.2.1
      "c" rfl (by decide)).2.1]
    decide
  · rw [(registry_http_endpoint ⟨10, [("b", 0)]⟩ [] 5).1.1]
    rfl
